import Mathlib

/-!
Shallow embedding of the NAS100 breakout backtesting engine
(`backtester.py` and `ultra_backtester.py`).

Prices, balances and volumes are modelled as exact rationals (ℚ).
Bar timestamps are modelled as minutes since an epoch (`Nat`); the
calendar-date key produced by `strftime('%Y-%m-%d')` is modelled as
`time / 1440` and the hour as `time % 1440 / 60`.
-/

/-- One OHLCV candle, mirroring the DataFrame rows consumed by the engine. -/
structure Bar where
  time : Nat
  open_price : ℚ
  high : ℚ
  low : ℚ
  close : ℚ
  tick_volume : ℚ
  deriving Repr, DecidableEq, Inhabited

/-- Calendar date key derived from a bar time (models `strftime('%Y-%m-%d')`). -/
def dateOf (t : Nat) : Nat := t / 1440

/-- Hour-of-day derived from a bar time (models `current_time.hour`). -/
def hourOf (t : Nat) : Nat := t % 1440 / 60

/-- Trade direction (`'BUY'` / `'SELL'` in the source). -/
inductive Side where
  | BUY
  | SELL
  deriving Repr, DecidableEq

/-- Exit reason strings of the source (`'TP'`, `'SL'`, `'TSL'`, `'END_OF_DATA'`). -/
inductive ExitReason where
  | TP
  | SL
  | TSL
  | END_OF_DATA
  deriving Repr, DecidableEq

/-- The `current_trade` dict held while a position is open. -/
structure OpenTrade where
  side : Side
  entry_price : ℚ
  entry_time : Nat
  take_profit : ℚ
  stop_loss : ℚ
  lot_size : ℚ
  trailing_stop : Option ℚ
  deriving Repr, DecidableEq

/-- The closed-trade record appended to `self.trades` by `close_trade`. -/
structure ClosedTrade where
  entry_time : Nat
  exit_time : Nat
  side : Side
  entry_price : ℚ
  exit_price : ℚ
  take_profit : ℚ
  stop_loss : ℚ
  points : ℚ
  profit : ℚ
  balance : ℚ
  exit_reason : ExitReason
  win : Bool
  deriving Repr, DecidableEq

/-- One element of `self.equity_curve`. -/
structure EquitySample where
  time : Nat
  balance : ℚ
  in_position : Bool
  deriving Repr, DecidableEq

/-- Configuration of the basic `Backtester` class. -/
structure BTParams where
  initial_balance : ℚ
  lot_size : ℚ
  risk_reward : ℚ
  consolidation_periods : Nat
  breakout_threshold : ℚ
  max_daily_trades : Nat
  deriving Repr, DecidableEq

/-- The mutable run state of the basic `Backtester`
(`balance`, `in_position`, `current_trade`, `trades`, `equity_curve`,
`daily_trades_count`). -/
structure BTState where
  balance : ℚ
  in_position : Bool
  current_trade : Option OpenTrade
  trades : List ClosedTrade
  equity_curve : List EquitySample
  daily_trades_count : Nat → Nat

/-- The reset performed at the top of `run_backtest`. -/
def BTState.init (p : BTParams) : BTState :=
  { balance := p.initial_balance
    in_position := false
    current_trade := none
    trades := []
    equity_curve := []
    daily_trades_count := fun _ => 0 }

/-- Sum of a list of rationals. -/
def sumQ (l : List ℚ) : ℚ := l.foldr (· + ·) 0

/-- Maximum of a nonempty list modelled with a seed (`max`/`.max()` of pandas);
the seed is the head so the result is the true maximum for nonempty lists. -/
def maxFrom (a : ℚ) (l : List ℚ) : ℚ := l.foldr max a

/-- Minimum with a seed. -/
def minFrom (a : ℚ) (l : List ℚ) : ℚ := l.foldr min a

/-- `max` of a list of rationals, with `0` standing in for pandas' NaN on
an empty list (only ever used on nonempty lists by the engine). -/
def maxQ (l : List ℚ) : ℚ :=
  match l with
  | [] => 0
  | a :: rest => maxFrom a rest

/-- `min` of a list of rationals, `0` on empty. -/
def minQ (l : List ℚ) : ℚ :=
  match l with
  | [] => 0
  | a :: rest => minFrom a rest

/-- `mean` of a list of rationals (pandas divides by the window length). -/
def meanQ (l : List ℚ) : ℚ := sumQ l / (l.length : ℚ)

/-- The sliceBars `df.iloc[a:b]` of a bar series. -/
def sliceBars (df : List Bar) (a b : Nat) : List Bar := (df.drop a).take (b - a)

/-- `df.iloc[i]`, with a default bar standing in for the (unreachable in the
replay loop) out-of-range access. -/
def getBar (df : List Bar) (i : Nat) : Bar := (df.get? i).getD default

namespace Backtester

/-- `Backtester.identify_consolidation`: returns
`(is_consolidating, high_level, low_level, box_range)`.
When `current_idx < consolidation_periods` the empty result is returned.
An empty window (impossible for in-range indices with a positive lookback)
yields the non-consolidating result, mirroring pandas NaN comparisons
evaluating to `False`. -/
def identify_consolidation (p : BTParams) (df : List Bar) (current_idx : Nat) :
    Bool × Option ℚ × Option ℚ × Option ℚ :=
  if current_idx < p.consolidation_periods then
    (false, none, none, none)
  else
    let recent := sliceBars df (current_idx - p.consolidation_periods) current_idx
    match recent with
    | [] => (false, none, none, none)
    | _ =>
      let high_level := maxQ (recent.map Bar.high)
      let low_level := minQ (recent.map Bar.low)
      let box_range := high_level - low_level
      let avg_price := meanQ (recent.map Bar.close)
      let is_consolidating := decide (box_range / avg_price < p.breakout_threshold)
      (is_consolidating, some high_level, some low_level, some box_range)

/-- `Backtester.detect_breakout`: compares the previous close and the current
close against the box boundary. -/
def detect_breakout (df : List Bar) (current_idx : Nat)
    (high_level low_level : ℚ) : Option Side :=
  if current_idx < 1 then none
  else
    let current_price := (getBar df current_idx).close
    let previous_price := (getBar df (current_idx - 1)).close
    if previous_price ≤ high_level ∧ high_level < current_price then
      some Side.BUY
    else if low_level ≤ previous_price ∧ current_price < low_level then
      some Side.SELL
    else
      none

/-- `Backtester.calculate_tp_sl`: box-range-based TP/SL, returning
`(take_profit, stop_loss)` with `sl_multiplier = 1.2`. -/
def calculate_tp_sl (p : BTParams) (entry_price : ℚ) (signal_type : Side)
    (box_range : ℚ) : ℚ × ℚ :=
  let sl_multiplier : ℚ := 1.2
  match signal_type with
  | Side.BUY =>
    let stop_loss := entry_price - box_range * sl_multiplier
    let risk := entry_price - stop_loss
    (entry_price + risk * p.risk_reward, stop_loss)
  | Side.SELL =>
    let stop_loss := entry_price + box_range * sl_multiplier
    let risk := stop_loss - entry_price
    (entry_price - risk * p.risk_reward, stop_loss)

/-- `Backtester.open_trade`. -/
def open_trade (p : BTParams) (st : BTState) (signal_type : Side)
    (entry_price : ℚ) (entry_time : Nat) (take_profit stop_loss : ℚ) : BTState :=
  { st with
    current_trade := some
      { side := signal_type
        entry_price := entry_price
        entry_time := entry_time
        take_profit := take_profit
        stop_loss := stop_loss
        lot_size := p.lot_size
        trailing_stop := none }
    in_position := true }

/-- `Backtester.check_trade_exit`: returns `(should_close, exit_price, exit_reason)`.
Take-profit is tested before stop-loss for both directions. -/
def check_trade_exit (st : BTState) (current_bar : Bar) :
    Bool × Option ℚ × Option ExitReason :=
  if st.in_position = false ∨ st.current_trade = none then
    (false, none, none)
  else
    match st.current_trade with
    | none => (false, none, none)
    | some tr =>
      match tr.side with
      | Side.BUY =>
        if tr.take_profit ≤ current_bar.high then
          (true, some tr.take_profit, some ExitReason.TP)
        else if current_bar.low ≤ tr.stop_loss then
          (true, some tr.stop_loss, some ExitReason.SL)
        else
          (false, none, none)
      | Side.SELL =>
        if current_bar.low ≤ tr.take_profit then
          (true, some tr.take_profit, some ExitReason.TP)
        else if tr.stop_loss ≤ current_bar.high then
          (true, some tr.stop_loss, some ExitReason.SL)
        else
          (false, none, none)

/-- `Backtester.close_trade`: computes P&L, updates the balance, appends the
closed-trade record and resets the position. -/
def close_trade (p : BTParams) (st : BTState) (exit_price : ℚ) (exit_time : Nat)
    (exit_reason : ExitReason) : BTState :=
  if st.in_position = false then st
  else
    match st.current_trade with
    | none => st
    | some tr =>
      let points :=
        match tr.side with
        | Side.BUY => exit_price - tr.entry_price
        | Side.SELL => tr.entry_price - exit_price
      let profit := points * p.lot_size * 100
      let newBalance := st.balance + profit
      let rec_ : ClosedTrade :=
        { entry_time := tr.entry_time
          exit_time := exit_time
          side := tr.side
          entry_price := tr.entry_price
          exit_price := exit_price
          take_profit := tr.take_profit
          stop_loss := tr.stop_loss
          points := points
          profit := profit
          balance := newBalance
          exit_reason := exit_reason
          win := decide (0 < profit) }
      { st with
        balance := newBalance
        trades := st.trades ++ [rec_]
        in_position := false
        current_trade := none }

/-- `Backtester.can_trade_today`. -/
def can_trade_today (p : BTParams) (st : BTState) (current_time : Nat) : Bool :=
  decide (st.daily_trades_count (dateOf current_time) < p.max_daily_trades)

/-- `Backtester.increment_daily_trades`. -/
def increment_daily_trades (st : BTState) (current_time : Nat) : BTState :=
  { st with
    daily_trades_count := fun d =>
      if d = dateOf current_time then st.daily_trades_count d + 1
      else st.daily_trades_count d }

/-- The exit-check phase of one iteration of the `run_backtest` loop
(close the open trade if the current bar triggers an exit). -/
def exitPhase (p : BTParams) (df : List Bar) (i : Nat) (st : BTState) : BTState :=
  if st.in_position then
    let bar := getBar df i
    match check_trade_exit st bar with
    | (true, some price, some reason) => close_trade p st price bar.time reason
    | _ => st
  else st

/-- The equity-recording phase of one loop iteration
(`self.equity_curve.append(...)`). -/
def recordEquity (df : List Bar) (i : Nat) (st : BTState) : BTState :=
  { st with
    equity_curve := st.equity_curve ++
      [{ time := (getBar df i).time, balance := st.balance,
         in_position := st.in_position }] }

/-- The entry phase of one loop iteration: skipped when still in position or
when the daily cap is reached; otherwise consolidation detection, breakout
detection, TP/SL computation and trade opening. -/
def entryPhase (p : BTParams) (df : List Bar) (i : Nat) (st : BTState) : BTState :=
  if st.in_position then st
  else if can_trade_today p st (getBar df i).time = false then st
  else
    match identify_consolidation p df i with
    | (true, some high_level, some low_level, some box_range) =>
      match detect_breakout df i high_level low_level with
      | some signal =>
        let current_price := (getBar df i).close
        let (tp, sl) := calculate_tp_sl p current_price signal box_range
        let st' := open_trade p st signal current_price (getBar df i).time tp sl
        increment_daily_trades st' (getBar df i).time
      | none => st
    | _ => st

/-- One full iteration of the `run_backtest` loop at bar index `i`. -/
def stepBar (p : BTParams) (df : List Bar) (i : Nat) (st : BTState) : BTState :=
  entryPhase p df i (recordEquity df i (exitPhase p df i st))

/-- The `run_backtest` loop over a list of bar indices. -/
def runLoop (p : BTParams) (df : List Bar) : List Nat → BTState → BTState
  | [], st => st
  | i :: rest, st => runLoop p df rest (stepBar p df i st)

/-- The forced close at the end of `run_backtest` (`'END_OF_DATA'`). -/
def forceClose (p : BTParams) (df : List Bar) (endIdx : Nat) (st : BTState) :
    BTState :=
  if st.in_position then
    let last_bar := getBar df (endIdx - 1)
    close_trade p st last_bar.close last_bar.time ExitReason.END_OF_DATA
  else st

/-- The resolved start index (default `consolidation_periods`). -/
def startIdx (p : BTParams) (startO : Option Nat) : Nat :=
  startO.getD p.consolidation_periods

/-- The resolved end index (default `len(df)`). -/
def endIdx (df : List Bar) (endO : Option Nat) : Nat :=
  endO.getD df.length

/-- `Backtester.run_backtest`: reset, replay loop, forced close.
The returned value is the final engine state (the results dictionary is
computed from it by `get_results`). -/
def run_backtest (p : BTParams) (df : List Bar)
    (startO endO : Option Nat) : BTState :=
  let s := startIdx p startO
  let e := endIdx df endO
  forceClose p df e (runLoop p df (List.range' s (e - s)) (BTState.init p))

/-- The state after processing the first `k` bars of the replay
(a prefix of the loop, before the forced close). -/
def runPrefixState (p : BTParams) (df : List Bar) (startO : Option Nat)
    (k : Nat) : BTState :=
  runLoop p df (List.range' (startIdx p startO) k) (BTState.init p)

end Backtester

/-- Per-filter rejection counters (`self.rejected_trades`). -/
structure Rejected where
  trend : Nat
  strength : Nat
  volume : Nat
  rsi : Nat
  quality : Nat
  time : Nat
  false_breakout : Nat
  mtf : Nat
  deriving Repr, DecidableEq

/-- All-zero rejection counters. -/
def Rejected.zero : Rejected :=
  { trend := 0, strength := 0, volume := 0, rsi := 0,
    quality := 0, time := 0, false_breakout := 0, mtf := 0 }

/-- Configuration of the `UltraBacktester` class. -/
structure UParams where
  initial_balance : ℚ
  lot_size : ℚ
  risk_reward : ℚ
  consolidation_periods : Nat
  breakout_threshold : ℚ
  max_daily_trades : Nat
  use_trend_filter : Bool
  trend_period : Nat
  use_breakout_strength : Bool
  min_breakout_strength : ℚ
  use_atr_stops : Bool
  atr_period : Nat
  atr_multiplier : ℚ
  volume_multiplier : ℚ
  use_rsi_filter : Bool
  rsi_period : Nat
  rsi_overbought : ℚ
  rsi_oversold : ℚ
  use_consolidation_quality : Bool
  min_touches : Nat
  use_time_filter : Bool
  trading_start_hour : Nat
  trading_end_hour : Nat
  use_trailing_stop : Bool
  trailing_stop_pct : ℚ
  use_false_breakout_filter : Bool
  confirmation_bars : Nat
  use_mtf_confirmation : Bool
  higher_tf_period : Nat
  deriving Repr, DecidableEq

/-- The mutable run state of the `UltraBacktester`. -/
structure UState where
  balance : ℚ
  in_position : Bool
  current_trade : Option OpenTrade
  trades : List ClosedTrade
  equity_curve : List EquitySample
  daily_trades_count : Nat → Nat
  highest_price_in_trade : Option ℚ
  lowest_price_in_trade : Option ℚ
  rejected : Rejected

/-- The reset performed at the top of the ultra `run_backtest`. -/
def UState.init (p : UParams) : UState :=
  { balance := p.initial_balance
    in_position := false
    current_trade := none
    trades := []
    equity_curve := []
    daily_trades_count := fun _ => 0
    highest_price_in_trade := none
    lowest_price_in_trade := none
    rejected := Rejected.zero }

/-- Successive differences of a list (`Series.diff()` without its leading NaN;
the NaN slot is accounted for in the RSI mean's divisor). -/
def diffsQ : List ℚ → List ℚ
  | [] => []
  | a :: rest => diffsAux a rest
where
  diffsAux : ℚ → List ℚ → List ℚ
  | _, [] => []
  | prev, b :: r => (b - prev) :: diffsAux b r

namespace UltraBacktester

/-- `UltraBacktester.calculate_sma`. -/
def calculate_sma (df : List Bar) (period idx : Nat) : Option ℚ :=
  if idx < period then none
  else some (meanQ ((sliceBars df (idx - period) idx).map Bar.close))

/-- `UltraBacktester.calculate_rsi`.  `deltas.where(deltas > 0, 0).mean()`
keeps the zeroed leading-NaN slot in the divisor, so the mean divides the
sum of the positive deltas by the full window length. -/
def calculate_rsi (df : List Bar) (period idx : Nat) : Option ℚ :=
  if idx < period + 1 then none
  else
    let prices := (sliceBars df (idx - period) idx).map Bar.close
    let deltas := diffsQ prices
    let gain := sumQ (deltas.map (fun d => max d 0)) / (prices.length : ℚ)
    let loss := sumQ (deltas.map (fun d => max (-d) 0)) / (prices.length : ℚ)
    if loss = 0 then some 100
    else
      let rs := gain / loss
      some (100 - 100 / (1 + rs))

/-- True-range list over a window: the first row (whose shifted previous close
is NaN) contributes `high - low`; later rows the max of the three spans. -/
def trueRanges : List Bar → List ℚ
  | [] => []
  | b :: rest => (b.high - b.low) :: trAux b rest
where
  trAux : Bar → List Bar → List ℚ
  | _, [] => []
  | prev, b :: r =>
    max (b.high - b.low) (max |b.high - prev.close| |b.low - prev.close|)
      :: trAux b r

/-- `UltraBacktester.calculate_atr`. -/
def calculate_atr (df : List Bar) (period idx : Nat) : Option ℚ :=
  if idx < period + 1 then none
  else some (meanQ (trueRanges (sliceBars df (idx - period) idx)))

/-- `UltraBacktester.check_rsi_filter`. -/
def check_rsi_filter (p : UParams) (df : List Bar) (idx : Nat) (signal : Side) :
    Bool :=
  if p.use_rsi_filter = false then true
  else
    match calculate_rsi df p.rsi_period idx with
    | none => true
    | some rsi =>
      match signal with
      | Side.BUY => decide (rsi ≤ p.rsi_overbought)
      | Side.SELL => decide (p.rsi_oversold ≤ rsi)

/-- `UltraBacktester.check_consolidation_quality`: counts bars whose high/low
is within 10% of the box edges. -/
def check_consolidation_quality (p : UParams) (df : List Bar)
    (high_level low_level : ℚ) (current_idx : Nat) : Bool :=
  if p.use_consolidation_quality = false then true
  else
    let recent := sliceBars df (current_idx - p.consolidation_periods) current_idx
    let box_range := high_level - low_level
    let touch_threshold := box_range * (1 / 10)
    let upper_touches :=
      (recent.filter (fun b => decide (|b.high - high_level| < touch_threshold))).length
    let lower_touches :=
      (recent.filter (fun b => decide (|b.low - low_level| < touch_threshold))).length
    decide (p.min_touches ≤ upper_touches + lower_touches)

/-- `UltraBacktester.check_time_filter`, with overnight wrap-around. -/
def check_time_filter (p : UParams) (current_time : Nat) : Bool :=
  if p.use_time_filter = false then true
  else
    let hour := hourOf current_time
    if p.trading_end_hour < p.trading_start_hour then
      decide (p.trading_start_hour ≤ hour ∨ hour ≤ p.trading_end_hour)
    else
      decide (p.trading_start_hour ≤ hour ∧ hour ≤ p.trading_end_hour)

/-- The confirmation scan of `check_false_breakout`: inspects `k` bars starting
at index `j`, requiring each close to stay beyond the breakout level.
`none` marks an out-of-range access (pandas would raise `IndexError`). -/
def scanConfirm (df : List Bar) (high_level low_level : ℚ) (signal : Side) :
    Nat → Nat → Option Bool
  | _, 0 => some true
  | j, k + 1 =>
    match df.get? j with
    | none => none
    | some confirm_bar =>
      match signal with
      | Side.BUY =>
        if confirm_bar.close < high_level then some false
        else scanConfirm df high_level low_level Side.BUY (j + 1) k
      | Side.SELL =>
        if low_level < confirm_bar.close then some false
        else scanConfirm df high_level low_level Side.SELL (j + 1) k

/-- `UltraBacktester.check_false_breakout`, instrumented so that an
out-of-range bar access would surface as `none` instead of a Boolean. -/
def check_false_breakout (p : UParams) (df : List Bar) (idx : Nat)
    (high_level low_level : ℚ) (signal : Side) : Option Bool :=
  if p.use_false_breakout_filter = false then some true
  else if df.length ≤ idx + p.confirmation_bars then some false
  else scanConfirm df high_level low_level signal (idx + 1) p.confirmation_bars

/-- The Boolean view of `check_false_breakout` used by the pipeline
(the `none` fault case is proved unreachable below). -/
def check_false_breakoutB (p : UParams) (df : List Bar) (idx : Nat)
    (high_level low_level : ℚ) (signal : Side) : Bool :=
  (check_false_breakout p df idx high_level low_level signal).getD false

/-- `UltraBacktester.check_mtf_confirmation`: when the long SMA cannot be
computed (insufficient history) the signal is passed through (`True`). -/
def check_mtf_confirmation (p : UParams) (df : List Bar) (idx : Nat)
    (signal : Side) : Bool :=
  if p.use_mtf_confirmation = false then true
  else
    match calculate_sma df p.higher_tf_period idx with
    | none => true
    | some htf_ma =>
      let current_price := (getBar df idx).close
      match signal with
      | Side.BUY => decide (htf_ma < current_price)
      | Side.SELL => decide (current_price < htf_ma)

/-- `UltraBacktester.check_trend`: requires both SMAs; missing data (`None`)
falls through to `return False` (a veto). -/
def check_trend (p : UParams) (df : List Bar) (idx : Nat) (signal : Side) :
    Bool :=
  if p.use_trend_filter = false then true
  else
    match calculate_sma df 20 idx, calculate_sma df p.trend_period idx with
    | some fast_ma, some slow_ma =>
      let current_price := (getBar df idx).close
      (match signal with
       | Side.BUY => decide (slow_ma < current_price ∧ slow_ma < fast_ma)
       | Side.SELL => decide (current_price < slow_ma ∧ fast_ma < slow_ma))
    | _, _ => false

/-- `UltraBacktester.check_breakout_strength`. -/
def check_breakout_strength (p : UParams) (current_price high_level low_level : ℚ)
    (signal : Side) : Bool :=
  if p.use_breakout_strength = false then true
  else
    let box_range := high_level - low_level
    let min_breakout := box_range * p.min_breakout_strength
    match signal with
    | Side.BUY => decide (min_breakout ≤ current_price - high_level)
    | Side.SELL => decide (min_breakout ≤ low_level - current_price)

/-- `UltraBacktester.check_volume`. -/
def check_volume (p : UParams) (df : List Bar) (idx : Nat) : Bool :=
  if idx < 20 then true
  else
    let current_volume := (getBar df idx).tick_volume
    let avg_volume := meanQ ((sliceBars df (idx - 20) idx).map Bar.tick_volume)
    decide (avg_volume * p.volume_multiplier < current_volume)

/-- `UltraBacktester.identify_consolidation` (same computation as the basic
engine). -/
def identify_consolidation (p : UParams) (df : List Bar) (current_idx : Nat) :
    Bool × Option ℚ × Option ℚ × Option ℚ :=
  if current_idx < p.consolidation_periods then
    (false, none, none, none)
  else
    let recent := sliceBars df (current_idx - p.consolidation_periods) current_idx
    match recent with
    | [] => (false, none, none, none)
    | _ =>
      let high_level := maxQ (recent.map Bar.high)
      let low_level := minQ (recent.map Bar.low)
      let box_range := high_level - low_level
      let avg_price := meanQ (recent.map Bar.close)
      let is_consolidating := decide (box_range / avg_price < p.breakout_threshold)
      (is_consolidating, some high_level, some low_level, some box_range)

/-- `UltraBacktester.detect_breakout`: the raw boundary crossing followed by
the eight filters in source order, each veto charging its own counter. -/
def detect_breakout (p : UParams) (df : List Bar) (current_idx : Nat)
    (high_level low_level : ℚ) (rej : Rejected) : Option Side × Rejected :=
  if current_idx < 1 then (none, rej)
  else
    let current_price := (getBar df current_idx).close
    let previous_price := (getBar df (current_idx - 1)).close
    let current_time := (getBar df current_idx).time
    let signal : Option Side :=
      if previous_price ≤ high_level ∧ high_level < current_price then
        some Side.BUY
      else if low_level ≤ previous_price ∧ current_price < low_level then
        some Side.SELL
      else none
    match signal with
    | none => (none, rej)
    | some s =>
      if check_volume p df current_idx = false then
        (none, { rej with volume := rej.volume + 1 })
      else if check_trend p df current_idx s = false then
        (none, { rej with trend := rej.trend + 1 })
      else if check_breakout_strength p current_price high_level low_level s = false then
        (none, { rej with strength := rej.strength + 1 })
      else if check_rsi_filter p df current_idx s = false then
        (none, { rej with rsi := rej.rsi + 1 })
      else if check_consolidation_quality p df high_level low_level current_idx = false then
        (none, { rej with quality := rej.quality + 1 })
      else if check_time_filter p current_time = false then
        (none, { rej with time := rej.time + 1 })
      else if check_false_breakoutB p df current_idx high_level low_level s = false then
        (none, { rej with false_breakout := rej.false_breakout + 1 })
      else if check_mtf_confirmation p df current_idx s = false then
        (none, { rej with mtf := rej.mtf + 1 })
      else (some s, rej)

/-- `UltraBacktester.calculate_tp_sl_box` (identical formula to the basic
engine's `calculate_tp_sl`). -/
def calculate_tp_sl_box (p : UParams) (entry_price : ℚ) (signal_type : Side)
    (box_range : ℚ) : ℚ × ℚ :=
  let sl_multiplier : ℚ := 1.2
  match signal_type with
  | Side.BUY =>
    let stop_loss := entry_price - box_range * sl_multiplier
    let risk := entry_price - stop_loss
    (entry_price + risk * p.risk_reward, stop_loss)
  | Side.SELL =>
    let stop_loss := entry_price + box_range * sl_multiplier
    let risk := stop_loss - entry_price
    (entry_price - risk * p.risk_reward, stop_loss)

/-- `UltraBacktester.calculate_tp_sl`: ATR-based stops with box fallback. -/
def calculate_tp_sl (p : UParams) (df : List Bar) (idx : Nat) (entry_price : ℚ)
    (signal_type : Side) (box_range : ℚ) : ℚ × ℚ :=
  if p.use_atr_stops then
    match calculate_atr df p.atr_period idx with
    | none => calculate_tp_sl_box p entry_price signal_type box_range
    | some atr =>
      let stop_distance := atr * p.atr_multiplier
      match signal_type with
      | Side.BUY =>
        (entry_price + stop_distance * p.risk_reward, entry_price - stop_distance)
      | Side.SELL =>
        (entry_price - stop_distance * p.risk_reward, entry_price + stop_distance)
  else calculate_tp_sl_box p entry_price signal_type box_range

/-- `UltraBacktester.open_trade`. -/
def open_trade (p : UParams) (st : UState) (signal_type : Side)
    (entry_price : ℚ) (entry_time : Nat) (take_profit stop_loss : ℚ) : UState :=
  { st with
    current_trade := some
      { side := signal_type
        entry_price := entry_price
        entry_time := entry_time
        take_profit := take_profit
        stop_loss := stop_loss
        lot_size := p.lot_size
        trailing_stop := if p.use_trailing_stop then some stop_loss else none }
    in_position := true
    highest_price_in_trade := some entry_price
    lowest_price_in_trade := some entry_price }

/-- `UltraBacktester.update_trailing_stop`: ratchets the stop toward price,
never away from it. -/
def update_trailing_stop (p : UParams) (st : UState)
    (current_high current_low : ℚ) : UState :=
  if p.use_trailing_stop = false ∨ st.in_position = false then st
  else
    match st.current_trade with
    | none => st
    | some tr =>
      let trail_distance := tr.entry_price * (p.trailing_stop_pct / 100)
      match tr.side with
      | Side.BUY =>
        match st.highest_price_in_trade with
        | none => st
        | some hp =>
          if hp < current_high then
            let new_stop := current_high - trail_distance
            let tr' :=
              match tr.trailing_stop with
              | some ts =>
                if ts < new_stop then { tr with trailing_stop := some new_stop }
                else tr
              | none => tr
            { st with highest_price_in_trade := some current_high,
                      current_trade := some tr' }
          else st
      | Side.SELL =>
        match st.lowest_price_in_trade with
        | none => st
        | some lp =>
          if current_low < lp then
            let new_stop := current_low + trail_distance
            let tr' :=
              match tr.trailing_stop with
              | some ts =>
                if new_stop < ts then { tr with trailing_stop := some new_stop }
                else tr
              | none => tr
            { st with lowest_price_in_trade := some current_low,
                      current_trade := some tr' }
          else st

/-- `UltraBacktester.check_trade_exit`: updates the trailing stop, then tests
take-profit before stop; returns the (possibly updated) state alongside
`(should_close, exit_price, exit_reason)`. -/
def check_trade_exit (p : UParams) (st : UState) (current_bar : Bar) :
    UState × Bool × Option ℚ × Option ExitReason :=
  if st.in_position = false ∨ st.current_trade = none then
    (st, false, none, none)
  else
    let st' := update_trailing_stop p st current_bar.high current_bar.low
    match st'.current_trade with
    | none => (st', false, none, none)
    | some tr =>
      let sl := if p.use_trailing_stop then tr.trailing_stop.getD tr.stop_loss
                else tr.stop_loss
      match tr.side with
      | Side.BUY =>
        if tr.take_profit ≤ current_bar.high then
          (st', true, some tr.take_profit, some ExitReason.TP)
        else if current_bar.low ≤ sl then
          (st', true, some sl,
            some (if p.use_trailing_stop then ExitReason.TSL else ExitReason.SL))
        else (st', false, none, none)
      | Side.SELL =>
        if current_bar.low ≤ tr.take_profit then
          (st', true, some tr.take_profit, some ExitReason.TP)
        else if sl ≤ current_bar.high then
          (st', true, some sl,
            some (if p.use_trailing_stop then ExitReason.TSL else ExitReason.SL))
        else (st', false, none, none)

/-- `UltraBacktester.close_trade`. -/
def close_trade (p : UParams) (st : UState) (exit_price : ℚ) (exit_time : Nat)
    (exit_reason : ExitReason) : UState :=
  if st.in_position = false then st
  else
    match st.current_trade with
    | none => st
    | some tr =>
      let points :=
        match tr.side with
        | Side.BUY => exit_price - tr.entry_price
        | Side.SELL => tr.entry_price - exit_price
      let profit := points * p.lot_size * 100
      let newBalance := st.balance + profit
      let rec_ : ClosedTrade :=
        { entry_time := tr.entry_time
          exit_time := exit_time
          side := tr.side
          entry_price := tr.entry_price
          exit_price := exit_price
          take_profit := tr.take_profit
          stop_loss := tr.stop_loss
          points := points
          profit := profit
          balance := newBalance
          exit_reason := exit_reason
          win := decide (0 < profit) }
      { st with
        balance := newBalance
        trades := st.trades ++ [rec_]
        in_position := false
        current_trade := none
        highest_price_in_trade := none
        lowest_price_in_trade := none }

/-- `UltraBacktester.can_trade_today`. -/
def can_trade_today (p : UParams) (st : UState) (current_time : Nat) : Bool :=
  decide (st.daily_trades_count (dateOf current_time) < p.max_daily_trades)

/-- `UltraBacktester.increment_daily_trades`. -/
def increment_daily_trades (st : UState) (current_time : Nat) : UState :=
  { st with
    daily_trades_count := fun d =>
      if d = dateOf current_time then st.daily_trades_count d + 1
      else st.daily_trades_count d }

/-- Exit-check phase of one ultra loop iteration. -/
def exitPhase (p : UParams) (df : List Bar) (i : Nat) (st : UState) : UState :=
  if st.in_position then
    let bar := getBar df i
    match check_trade_exit p st bar with
    | (st', true, some price, some reason) => close_trade p st' price bar.time reason
    | (st', _, _, _) => st'
  else st

/-- Equity-recording phase of one ultra loop iteration. -/
def recordEquity (df : List Bar) (i : Nat) (st : UState) : UState :=
  { st with
    equity_curve := st.equity_curve ++
      [{ time := (getBar df i).time, balance := st.balance,
         in_position := st.in_position }] }

/-- Entry phase of one ultra loop iteration. -/
def entryPhase (p : UParams) (df : List Bar) (i : Nat) (st : UState) : UState :=
  if st.in_position then st
  else if can_trade_today p st (getBar df i).time = false then st
  else
    match identify_consolidation p df i with
    | (true, some high_level, some low_level, some box_range) =>
      let (sig, rej') := detect_breakout p df i high_level low_level st.rejected
      let st1 := { st with rejected := rej' }
      match sig with
      | some signal =>
        let current_price := (getBar df i).close
        let (tp, sl) := calculate_tp_sl p df i current_price signal box_range
        let st2 := open_trade p st1 signal current_price (getBar df i).time tp sl
        increment_daily_trades st2 (getBar df i).time
      | none => st1
    | _ => st

/-- One full iteration of the ultra `run_backtest` loop. -/
def stepBar (p : UParams) (df : List Bar) (i : Nat) (st : UState) : UState :=
  entryPhase p df i (recordEquity df i (exitPhase p df i st))

/-- The ultra `run_backtest` loop over a list of bar indices. -/
def runLoop (p : UParams) (df : List Bar) : List Nat → UState → UState
  | [], st => st
  | i :: rest, st => runLoop p df rest (stepBar p df i st)

/-- The forced `'END_OF_DATA'` close after the ultra loop. -/
def forceClose (p : UParams) (df : List Bar) (endIdx : Nat) (st : UState) :
    UState :=
  if st.in_position then
    let last_bar := getBar df (endIdx - 1)
    close_trade p st last_bar.close last_bar.time ExitReason.END_OF_DATA
  else st

/-- The resolved ultra start index:
`max(consolidation_periods, trend_period, higher_tf_period)` by default. -/
def startIdx (p : UParams) (startO : Option Nat) : Nat :=
  startO.getD (max p.consolidation_periods (max p.trend_period p.higher_tf_period))

/-- The resolved ultra end index: by default `len(df) - confirmation_bars`
when the false-breakout filter is enabled, else `len(df)`. -/
def endIdx (p : UParams) (df : List Bar) (endO : Option Nat) : Nat :=
  endO.getD
    (if p.use_false_breakout_filter then df.length - p.confirmation_bars
     else df.length)

/-- `UltraBacktester.run_backtest`. -/
def run_backtest (p : UParams) (df : List Bar)
    (startO endO : Option Nat) : UState :=
  let s := startIdx p startO
  let e := endIdx p df endO
  forceClose p df e (runLoop p df (List.range' s (e - s)) (UState.init p))

end UltraBacktester

/-- Profit factor value: a finite ratio or the `float('inf')` sentinel. -/
inductive PFVal where
  | fin (q : ℚ)
  | inf
  deriving Repr, DecidableEq

/-- The results dictionary produced by `get_results`. -/
structure BTResults where
  total_trades : Nat
  winning_trades : Nat
  losing_trades : Nat
  win_rate : ℚ
  total_profit : ℚ
  total_loss : ℚ
  net_profit : ℚ
  return_pct : ℚ
  max_drawdown : ℚ
  max_drawdown_pct : ℚ
  avg_win : ℚ
  avg_loss : ℚ
  profit_factor : PFVal
  largest_win : ℚ
  largest_loss : ℚ
  final_balance : ℚ
  initial_balance : ℚ
  deriving Repr, DecidableEq

/-- Running cumulative maximum (`Series.cummax()`). -/
def cummax (l : List ℚ) : List ℚ :=
  match l with
  | [] => []
  | a :: rest => a :: cmAux a rest
where
  cmAux : ℚ → List ℚ → List ℚ
  | _, [] => []
  | m, b :: r =>
    let m' := max m b
    m' :: cmAux m' r

namespace Backtester

/-- `Backtester.get_results`: the zero-trade early return and the full
statistics branch.  Drawdown percent divides by the running peak (ℚ division
by zero yields 0, standing in for pandas' NaN in the out-of-run edge case of
an all-zero balance). -/
def get_results (p : BTParams) (st : BTState) : BTResults :=
  match st.trades with
  | [] =>
    { total_trades := 0
      winning_trades := 0
      losing_trades := 0
      win_rate := 0
      total_profit := 0
      total_loss := 0
      net_profit := 0
      return_pct := 0
      max_drawdown := 0
      max_drawdown_pct := 0
      avg_win := 0
      avg_loss := 0
      profit_factor := PFVal.fin 0
      largest_win := 0
      largest_loss := 0
      final_balance := st.balance
      initial_balance := p.initial_balance }
  | _ =>
    let winning := st.trades.filter (fun t => t.win)
    let losing := st.trades.filter (fun t => t.win = false)
    let total_profit :=
      if 0 < winning.length then sumQ (winning.map ClosedTrade.profit) else 0
    let total_loss :=
      if 0 < losing.length then |sumQ (losing.map ClosedTrade.profit)| else 0
    let balances := st.equity_curve.map EquitySample.balance
    let peaks := cummax balances
    let drawdowns := List.zipWith (fun pk b => pk - b) peaks balances
    let drawdown_pcts := List.zipWith (fun pk b => (pk - b) / pk * 100) peaks balances
    { total_trades := st.trades.length
      winning_trades := winning.length
      losing_trades := losing.length
      win_rate :=
        if 0 < st.trades.length then
          (winning.length : ℚ) / (st.trades.length : ℚ) * 100
        else 0
      total_profit := total_profit
      total_loss := total_loss
      net_profit := total_profit - total_loss
      return_pct := (st.balance - p.initial_balance) / p.initial_balance * 100
      max_drawdown := maxQ drawdowns
      max_drawdown_pct := maxQ drawdown_pcts
      avg_win := if 0 < winning.length then meanQ (winning.map ClosedTrade.profit) else 0
      avg_loss := if 0 < losing.length then meanQ (losing.map ClosedTrade.profit) else 0
      profit_factor :=
        if 0 < total_loss then PFVal.fin (total_profit / total_loss) else PFVal.inf
      largest_win := if 0 < winning.length then maxQ (winning.map ClosedTrade.profit) else 0
      largest_loss := if 0 < losing.length then minQ (losing.map ClosedTrade.profit) else 0
      final_balance := st.balance
      initial_balance := p.initial_balance }

end Backtester

/-- Spec-side predicate: strictly increasing bar timestamps
("time must be monotonically increasing"). -/
def timesStrictMono : List Bar → Bool
  | [] => true
  | [_] => true
  | a :: b :: rest => decide (a.time < b.time) && timesStrictMono (b :: rest)

/-- Sum of the profits of a list of closed trades. -/
def sumProfits (ts : List ClosedTrade) : ℚ := sumQ (ts.map ClosedTrade.profit)

/-- Number of closed trades whose entry falls on calendar date `d`. -/
def tradesOnDate (d : Nat) (ts : List ClosedTrade) : Nat :=
  (ts.filter (fun t => dateOf t.entry_time = d)).length

/-! Concrete exemplar data used by witnesses and counterexamples. -/

/-- A flat 2-bar consolidation, a breakout bar, and a take-profit bar,
all on the same calendar date. -/
def barA : Bar := { time := 100, open_price := 100, high := 100, low := 99, close := 100, tick_volume := 1 }

/-- Second consolidation bar. -/
def barB : Bar := { time := 101, open_price := 100, high := 100, low := 99, close := 100, tick_volume := 1 }

/-- Breakout bar closing above the box high. -/
def barC : Bar := { time := 102, open_price := 100, high := 101, low := 100, close := 101, tick_volume := 1 }

/-- Bar whose high reaches the take-profit and whose close re-breaks the box. -/
def barD : Bar := { time := 103, open_price := 101, high := 104, low := 100, close := 103.5, tick_volume := 1 }

/-- Four-bar exemplar series. -/
def bars4 : List Bar := [barA, barB, barC, barD]

/-- Basic-engine exemplar parameters with a one-trade daily cap. -/
def pm1 : BTParams :=
  { initial_balance := 10000, lot_size := 1, risk_reward := 2,
    consolidation_periods := 2, breakout_threshold := 1, max_daily_trades := 1 }

/-- Same parameters with a two-trade daily cap. -/
def pm2 : BTParams := { pm1 with max_daily_trades := 2 }

/-! Arithmetic helper lemmas. -/

theorem sumQ_append (l1 l2 : List ℚ) : sumQ (l1 ++ l2) = sumQ l1 + sumQ l2 := by
  induction l1 with
  | nil => simp [sumQ]
  | cons a t ih => simp [sumQ, List.foldr] at ih ⊢; rw [ih]; ring

theorem sumProfits_append (t1 t2 : List ClosedTrade) :
    sumProfits (t1 ++ t2) = sumProfits t1 + sumProfits t2 := by
  simp [sumProfits, sumQ_append]

theorem maxFrom_mem (a : ℚ) (l : List ℚ) : maxFrom a l ∈ a :: l := by
  induction l with
  | nil => simp [maxFrom]
  | cons b t ih =>
    have hstep : maxFrom a (b :: t) = max b (maxFrom a t) := rfl
    rw [hstep]
    rw [List.mem_cons] at ih
    rcases max_choice b (maxFrom a t) with h | h <;> rw [h]
    · simp
    · rcases ih with h' | h' <;> simp [h']

theorem le_maxFrom (a : ℚ) (l : List ℚ) : ∀ x ∈ a :: l, x ≤ maxFrom a l := by
  induction l with
  | nil => intro x hx; rw [List.mem_cons] at hx; simp at hx; simp [maxFrom, hx]
  | cons b t ih =>
    intro x hx
    have hstep : maxFrom a (b :: t) = max b (maxFrom a t) := rfl
    rw [hstep]
    rw [List.mem_cons, List.mem_cons] at hx
    rcases hx with hx | hx | hx
    · rw [hx]; exact le_trans (ih a (by simp)) (le_max_right _ _)
    · rw [hx]; exact le_max_left _ _
    · exact le_trans (ih x (by simp [hx])) (le_max_right _ _)

theorem minFrom_mem (a : ℚ) (l : List ℚ) : minFrom a l ∈ a :: l := by
  induction l with
  | nil => simp [minFrom]
  | cons b t ih =>
    have hstep : minFrom a (b :: t) = min b (minFrom a t) := rfl
    rw [hstep]
    rw [List.mem_cons] at ih
    rcases min_choice b (minFrom a t) with h | h <;> rw [h]
    · simp
    · rcases ih with h' | h' <;> simp [h']

theorem minFrom_le (a : ℚ) (l : List ℚ) : ∀ x ∈ a :: l, minFrom a l ≤ x := by
  induction l with
  | nil => intro x hx; rw [List.mem_cons] at hx; simp at hx; simp [minFrom, hx]
  | cons b t ih =>
    intro x hx
    have hstep : minFrom a (b :: t) = min b (minFrom a t) := rfl
    rw [hstep]
    rw [List.mem_cons, List.mem_cons] at hx
    rcases hx with hx | hx | hx
    · rw [hx]; exact le_trans (min_le_right _ _) (ih a (by simp))
    · rw [hx]; exact min_le_left _ _
    · exact le_trans (min_le_right _ _) (ih x (by simp [hx]))

theorem maxQ_spec (l : List ℚ) (hl : l ≠ []) :
    maxQ l ∈ l ∧ ∀ x ∈ l, x ≤ maxQ l := by
  match l with
  | [] => exact absurd rfl hl
  | a :: t => exact ⟨maxFrom_mem a t, le_maxFrom a t⟩

theorem minQ_spec (l : List ℚ) (hl : l ≠ []) :
    minQ l ∈ l ∧ ∀ x ∈ l, minQ l ≤ x := by
  match l with
  | [] => exact absurd rfl hl
  | a :: t => exact ⟨minFrom_mem a t, minFrom_le a t⟩

/-- C5: for every BUY entry `e`, box range `r` and risk:reward `k`, the
box-based calculator returns `stop_loss = e - 1.2*r` and
`take_profit = e + 1.2*r*k`, mirrored for SELL, in both the basic and the
ultra engine; in particular entry `101`, box range `0.5`, `k = 2` yields
`stop_loss = 100.4` and `take_profit = 102.2`. -/
theorem C5_box_tp_sl (p : BTParams) (u : UParams) (e r : ℚ) :
    Backtester.calculate_tp_sl p e Side.BUY r =
      (e + 1.2 * r * p.risk_reward, e - 1.2 * r) ∧
    Backtester.calculate_tp_sl p e Side.SELL r =
      (e - 1.2 * r * p.risk_reward, e + 1.2 * r) ∧
    UltraBacktester.calculate_tp_sl_box u e Side.BUY r =
      (e + 1.2 * r * u.risk_reward, e - 1.2 * r) ∧
    UltraBacktester.calculate_tp_sl_box u e Side.SELL r =
      (e - 1.2 * r * u.risk_reward, e + 1.2 * r) ∧
    Backtester.calculate_tp_sl pm1 101 Side.BUY (1/2) = (102.2, 100.4) := by
  refine ⟨?_, ?_, ?_, ?_,
    by norm_num [Backtester.calculate_tp_sl, pm1, Prod.ext_iff]⟩ <;>
  · simp only [Backtester.calculate_tp_sl, UltraBacktester.calculate_tp_sl_box,
      Prod.mk.injEq]
    constructor <;> ring

/-- An open BUY trade with `take_profit = 110`, `stop_loss = 95`. -/
def trW : OpenTrade :=
  { side := Side.BUY, entry_price := 100, entry_time := 0,
    take_profit := 110, stop_loss := 95, lot_size := 1, trailing_stop := none }

/-- A state holding `trW` open. -/
def stW2 : BTState :=
  { balance := 1000, in_position := true, current_trade := some trW,
    trades := [], equity_curve := [], daily_trades_count := fun _ => 0 }

/-- A bar touching both the take-profit (high 111 ≥ 110) and the stop
(low 90 ≤ 95) in the same bar. -/
def barW : Bar :=
  { time := 7, open_price := 100, high := 111, low := 90, close := 100,
    tick_volume := 1 }

/-- C2: for an open BUY trade, a bar whose high reaches the take-profit closes
the trade with reason `TP` at the take-profit price — with no assumption on the
bar's low, so this holds even when the low also touches the stop-loss
(take-profit is checked first); symmetrically for SELL.  Closing at the
take-profit books profit `(take_profit - entry_price) * lot_size * 100`. -/
theorem C2_tp_before_sl (p : BTParams) (st : BTState) (tr : OpenTrade)
    (bar : Bar) (t : Nat) (hpos : st.in_position = true)
    (htr : st.current_trade = some tr) :
    (tr.side = Side.BUY → tr.take_profit ≤ bar.high →
      Backtester.check_trade_exit st bar =
        (true, some tr.take_profit, some ExitReason.TP)) ∧
    (tr.side = Side.SELL → bar.low ≤ tr.take_profit →
      Backtester.check_trade_exit st bar =
        (true, some tr.take_profit, some ExitReason.TP)) ∧
    (tr.side = Side.BUY →
      ∃ rec_, (Backtester.close_trade p st tr.take_profit t ExitReason.TP).trades
          = st.trades ++ [rec_] ∧
        rec_.profit = (tr.take_profit - tr.entry_price) * p.lot_size * 100 ∧
        rec_.exit_price = tr.take_profit ∧
        rec_.exit_reason = ExitReason.TP ∧
        (Backtester.close_trade p st tr.take_profit t ExitReason.TP).balance
          = st.balance + rec_.profit) := by
  refine ⟨?_, ?_, ?_⟩
  · intro hside htp
    simp [Backtester.check_trade_exit, hpos, htr, hside, htp]
  · intro hside htp
    simp [Backtester.check_trade_exit, hpos, htr, hside, htp]
  · intro hside
    simp only [Backtester.close_trade, hpos, htr, hside]
    norm_num

/-- Witness for C2 at a concrete trade and bar whose low (90) also touches the
stop (95): the exit is still `TP` at 110 with profit `(110-100)*1*100`. -/
theorem C2_tp_before_sl_witness :
    Backtester.check_trade_exit stW2 barW =
      (true, some trW.take_profit, some ExitReason.TP) ∧
    barW.low ≤ trW.stop_loss ∧
    ∃ rec_, (Backtester.close_trade pm1 stW2 trW.take_profit 7 ExitReason.TP).trades
        = stW2.trades ++ [rec_] ∧
      rec_.profit = (trW.take_profit - trW.entry_price) * pm1.lot_size * 100 ∧
      rec_.exit_price = trW.take_profit ∧
      rec_.exit_reason = ExitReason.TP ∧
      (Backtester.close_trade pm1 stW2 trW.take_profit 7 ExitReason.TP).balance
        = stW2.balance + rec_.profit := by
  obtain ⟨h1, h2, h3⟩ := C2_tp_before_sl pm1 stW2 trW barW 7 rfl rfl
  exact ⟨h1 rfl (by norm_num [trW, barW]), by norm_num [trW, barW], h3 rfl⟩

/-- Ultra-engine exemplar parameters (small periods, one confirmation bar,
all indicator filters enabled, zero breakout threshold so the exemplar series
never consolidates). -/
def uW : UParams :=
  { initial_balance := 10000, lot_size := 1, risk_reward := 2,
    consolidation_periods := 2, breakout_threshold := 0, max_daily_trades := 5,
    use_trend_filter := true, trend_period := 2,
    use_breakout_strength := true, min_breakout_strength := 0.15,
    use_atr_stops := true, atr_period := 2, atr_multiplier := 2,
    volume_multiplier := 1.1,
    use_rsi_filter := true, rsi_period := 2, rsi_overbought := 70,
    rsi_oversold := 30,
    use_consolidation_quality := true, min_touches := 3,
    use_time_filter := true, trading_start_hour := 2, trading_end_hour := 20,
    use_trailing_stop := false, trailing_stop_pct := 0.5,
    use_false_breakout_filter := true, confirmation_bars := 1,
    use_mtf_confirmation := true, higher_tf_period := 2 }

/-- A five-bar exemplar series for the ultra engine. -/
def dfU : List Bar :=
  [ { time := 100, open_price := 100, high := 101, low := 99, close := 100, tick_volume := 1 },
    { time := 101, open_price := 100, high := 101, low := 99, close := 100, tick_volume := 1 },
    { time := 102, open_price := 100, high := 101, low := 99, close := 100, tick_volume := 1 },
    { time := 103, open_price := 100, high := 101, low := 99, close := 100, tick_volume := 1 },
    { time := 104, open_price := 100, high := 101, low := 99, close := 100, tick_volume := 1 } ]

/-- Counterexample to C3: with the MTF filter enabled and insufficient history
(the long SMA is indeterminate at index 1), `check_mtf_confirmation` returns
`True` — the signal is passed through, not vetoed. -/
theorem C3_counterexample :
    uW.use_mtf_confirmation = true ∧
    UltraBacktester.calculate_sma dfU uW.higher_tf_period 1 = none ∧
    UltraBacktester.check_mtf_confirmation uW dfU 1 Side.BUY = true := by
  refine ⟨rfl, ?_, ?_⟩ <;> decide

/-- C3 (amended): with insufficient history for its moving averages, the Trend
filter (when enabled) vetoes the signal (`check_trend` returns `False`), but
the MTF confirmation filter passes the signal through (`check_mtf_confirmation`
returns `True`) instead of vetoing it. -/
theorem C3_amended_indeterminate (p : UParams) (df : List Bar) (i : Nat)
    (s : Side) :
    (p.use_trend_filter = true →
      (UltraBacktester.calculate_sma df 20 i = none ∨
       UltraBacktester.calculate_sma df p.trend_period i = none) →
      UltraBacktester.check_trend p df i s = false) ∧
    (UltraBacktester.calculate_sma df p.higher_tf_period i = none →
      UltraBacktester.check_mtf_confirmation p df i s = true) := by
  constructor
  · intro ht h
    simp only [UltraBacktester.check_trend, ht]
    rcases h with h | h
    · rw [h]
      simp
    · rw [h]
      cases UltraBacktester.calculate_sma df 20 i <;> simp
  · intro h
    simp only [UltraBacktester.check_mtf_confirmation, h]
    split <;> rfl

/-- Witness for the amended C3 at index 1 of the exemplar series: the Trend
filter vetoes (both SMAs indeterminate), the MTF filter passes. -/
theorem C3_amended_witness :
    UltraBacktester.check_trend uW dfU 1 Side.BUY = false ∧
    UltraBacktester.check_mtf_confirmation uW dfU 1 Side.BUY = true := by
  obtain ⟨h1, h2⟩ := C3_amended_indeterminate uW dfU 1 Side.BUY
  exact ⟨h1 rfl (Or.inl (by decide)), h2 (by decide)⟩

theorem scanConfirm_total (df : List Bar) (hl ll : ℚ) (s : Side) :
    ∀ (k j : Nat), j + k ≤ df.length →
      ∃ b, UltraBacktester.scanConfirm df hl ll s j k = some b := by
  intro k
  induction k with
  | zero => intro j _; exact ⟨true, rfl⟩
  | succ n ih =>
    intro j h
    have hj : j < df.length := by omega
    have hbar : df.get? j = some (df.get ⟨j, hj⟩) := List.get?_eq_get hj
    cases s
    · simp only [UltraBacktester.scanConfirm, hbar]
      by_cases hc : (df.get ⟨j, hj⟩).close < hl
      · rw [if_pos hc]; exact ⟨false, rfl⟩
      · rw [if_neg hc]; exact ih (j + 1) (by omega)
    · simp only [UltraBacktester.scanConfirm, hbar]
      by_cases hc : ll < (df.get ⟨j, hj⟩).close
      · rw [if_pos hc]; exact ⟨false, rfl⟩
      · rw [if_neg hc]; exact ih (j + 1) (by omega)

theorem scanConfirm_frame (df1 df2 : List Bar) (hl ll : ℚ) (s : Side) :
    ∀ (k j : Nat), (∀ i, j ≤ i → i < j + k → df1.get? i = df2.get? i) →
      UltraBacktester.scanConfirm df1 hl ll s j k =
        UltraBacktester.scanConfirm df2 hl ll s j k := by
  intro k
  induction k with
  | zero => intro j _; rfl
  | succ n ih =>
    intro j h
    have hj : df1.get? j = df2.get? j := h j (le_refl j) (by omega)
    have hrest : ∀ i, j + 1 ≤ i → i < (j + 1) + n → df1.get? i = df2.get? i :=
      fun i h1 h2 => h i (by omega) (by omega)
    cases s
    · simp only [UltraBacktester.scanConfirm, hj]
      cases df2.get? j with
      | none => rfl
      | some bar =>
        dsimp only
        by_cases hc : bar.close < hl
        · rw [if_pos hc, if_pos hc]
        · rw [if_neg hc, if_neg hc]
          exact ih (j + 1) hrest
    · simp only [UltraBacktester.scanConfirm, hj]
      cases df2.get? j with
      | none => rfl
      | some bar =>
        dsimp only
        by_cases hc : ll < bar.close
        · rw [if_pos hc, if_pos hc]
        · rw [if_neg hc, if_neg hc]
          exact ih (j + 1) hrest

/-- C4: the false-breakout confirmation filter (when enabled) vetoes
(`some false`) whenever fewer than `confirmation_bars` bars exist after index
`idx`; it never performs an out-of-range access (the result is never the
`none` fault marker); and its result depends only on the series length and the
bars at indices `idx+1 .. idx+confirmation_bars`. -/
theorem C4_false_breakout_bounds (p : UParams) (df df2 : List Bar) (idx : Nat)
    (hl ll : ℚ) (s : Side) :
    (p.use_false_breakout_filter = true →
      df.length ≤ idx + p.confirmation_bars →
      UltraBacktester.check_false_breakout p df idx hl ll s = some false) ∧
    (∃ b, UltraBacktester.check_false_breakout p df idx hl ll s = some b) ∧
    (df.length = df2.length →
      (∀ j, idx + 1 ≤ j → j ≤ idx + p.confirmation_bars →
        df.get? j = df2.get? j) →
      UltraBacktester.check_false_breakout p df idx hl ll s =
        UltraBacktester.check_false_breakout p df2 idx hl ll s) := by
  refine ⟨?_, ?_, ?_⟩
  · intro hfb hlen
    simp only [UltraBacktester.check_false_breakout, hfb]
    simp [hlen]
  · simp only [UltraBacktester.check_false_breakout]
    split
    · exact ⟨true, rfl⟩
    split
    · exact ⟨false, rfl⟩
    · next hshort =>
      exact scanConfirm_total df hl ll s p.confirmation_bars (idx + 1) (by omega)
  · intro hlen hagree
    simp only [UltraBacktester.check_false_breakout, hlen]
    split
    · rfl
    split
    · rfl
    · exact scanConfirm_frame df df2 hl ll s p.confirmation_bars (idx + 1)
        (fun i h1 h2 => hagree i h1 (by omega))

/-- The exemplar series with a different first bar (agreeing with `dfU`
everywhere after index 0). -/
def dfU2 : List Bar :=
  [ { time := 90, open_price := 50, high := 51, low := 49, close := 50, tick_volume := 9 },
    { time := 101, open_price := 100, high := 101, low := 99, close := 100, tick_volume := 1 },
    { time := 102, open_price := 100, high := 101, low := 99, close := 100, tick_volume := 1 },
    { time := 103, open_price := 100, high := 101, low := 99, close := 100, tick_volume := 1 },
    { time := 104, open_price := 100, high := 101, low := 99, close := 100, tick_volume := 1 } ]

/-- Witness for C4: at the last bar the confirmation filter vetoes; at an
interior index it yields a Boolean (no fault) and is unchanged when only
bar 0 — outside its read window — differs. -/
theorem C4_false_breakout_witness :
    UltraBacktester.check_false_breakout uW dfU 4 1 2 Side.BUY = some false ∧
    (∃ b, UltraBacktester.check_false_breakout uW dfU 2 1 2 Side.BUY = some b) ∧
    UltraBacktester.check_false_breakout uW dfU 2 1 2 Side.BUY =
      UltraBacktester.check_false_breakout uW dfU2 2 1 2 Side.BUY := by
  refine ⟨?_, ?_, ?_⟩
  · exact (C4_false_breakout_bounds uW dfU dfU 4 1 2 Side.BUY).1 rfl (by decide)
  · exact (C4_false_breakout_bounds uW dfU dfU 2 1 2 Side.BUY).2.1
  · refine (C4_false_breakout_bounds uW dfU dfU2 2 1 2 Side.BUY).2.2 (by decide) ?_
    intro j h1 h2
    have hj : j = 3 := by
      have : uW.confirmation_bars = 1 := rfl
      omega
    subst hj
    rfl

/-- C9: below the lookback the detector reports not-consolidating with no box
levels; at or above it (with the index in range and a positive lookback) the
window is exactly the `N` bars before index `i` (bar `i` excluded), the
reported levels are the window's maximum high and minimum low, and
"consolidating" holds iff `(high_level - low_level) / mean(close) <
breakout_threshold`. -/
theorem C9_consolidation_detector (p : BTParams) (df : List Bar) (i : Nat) :
    (i < p.consolidation_periods →
      Backtester.identify_consolidation p df i = (false, none, none, none)) ∧
    (p.consolidation_periods ≤ i → i ≤ df.length → 0 < p.consolidation_periods →
      (sliceBars df (i - p.consolidation_periods) i).length =
        p.consolidation_periods ∧
      ∃ h l,
        h ∈ (sliceBars df (i - p.consolidation_periods) i).map Bar.high ∧
        (∀ x ∈ (sliceBars df (i - p.consolidation_periods) i).map Bar.high,
          x ≤ h) ∧
        l ∈ (sliceBars df (i - p.consolidation_periods) i).map Bar.low ∧
        (∀ x ∈ (sliceBars df (i - p.consolidation_periods) i).map Bar.low,
          l ≤ x) ∧
        Backtester.identify_consolidation p df i =
          (decide ((h - l) /
              meanQ ((sliceBars df (i - p.consolidation_periods) i).map Bar.close)
            < p.breakout_threshold), some h, some l, some (h - l))) := by
  constructor
  · intro hlt
    simp [Backtester.identify_consolidation, hlt]
  · intro h1 h2 h3
    have hlen : (sliceBars df (i - p.consolidation_periods) i).length =
        p.consolidation_periods := by
      simp only [sliceBars, List.length_take, List.length_drop]
      omega
    refine ⟨hlen, ?_⟩
    have hne : sliceBars df (i - p.consolidation_periods) i ≠ [] := by
      intro hcontra
      rw [hcontra] at hlen
      simp at hlen
      omega
    obtain ⟨a, t, hat⟩ := List.exists_cons_of_ne_nil hne
    have hmain : Backtester.identify_consolidation p df i =
        (decide ((maxQ ((sliceBars df (i - p.consolidation_periods) i).map Bar.high) -
            minQ ((sliceBars df (i - p.consolidation_periods) i).map Bar.low)) /
            meanQ ((sliceBars df (i - p.consolidation_periods) i).map Bar.close)
          < p.breakout_threshold),
         some (maxQ ((sliceBars df (i - p.consolidation_periods) i).map Bar.high)),
         some (minQ ((sliceBars df (i - p.consolidation_periods) i).map Bar.low)),
         some (maxQ ((sliceBars df (i - p.consolidation_periods) i).map Bar.high) -
           minQ ((sliceBars df (i - p.consolidation_periods) i).map Bar.low))) := by
      simp only [Backtester.identify_consolidation, if_neg (not_lt.mpr h1)]
      try rw [hat]
    exact ⟨maxQ ((sliceBars df (i - p.consolidation_periods) i).map Bar.high),
           minQ ((sliceBars df (i - p.consolidation_periods) i).map Bar.low),
           (maxQ_spec _ (by simp [hat])).1, (maxQ_spec _ (by simp [hat])).2,
           (minQ_spec _ (by simp [hat])).1, (minQ_spec _ (by simp [hat])).2,
           hmain⟩

/-- Witness for C9 at the exemplar series: below-lookback index 1 yields the
empty result; index 2 has a full 2-bar window. -/
theorem C9_consolidation_witness :
    Backtester.identify_consolidation pm1 bars4 1 = (false, none, none, none) ∧
    (sliceBars bars4 (2 - pm1.consolidation_periods) 2).length =
      pm1.consolidation_periods :=
  ⟨(C9_consolidation_detector pm1 bars4 1).1 (by decide),
   ((C9_consolidation_detector pm1 bars4 2).2 (by decide) (by decide)
      (by decide)).1⟩

/-- C7: with zero closed trades `get_results` returns the all-zero record
(never raising); with at least one closed trade and zero gross loss the
profit factor is the infinite sentinel. -/
theorem C7_degenerate_metrics (p : BTParams) (st : BTState) :
    (st.trades = [] →
      Backtester.get_results p st =
        { total_trades := 0, winning_trades := 0, losing_trades := 0,
          win_rate := 0, total_profit := 0, total_loss := 0, net_profit := 0,
          return_pct := 0, max_drawdown := 0, max_drawdown_pct := 0,
          avg_win := 0, avg_loss := 0, profit_factor := PFVal.fin 0,
          largest_win := 0, largest_loss := 0,
          final_balance := st.balance, initial_balance := p.initial_balance }) ∧
    (st.trades ≠ [] →
      (if 0 < (st.trades.filter (fun t => t.win = false)).length
       then |sumQ ((st.trades.filter (fun t => t.win = false)).map
              ClosedTrade.profit)|
       else 0) = 0 →
      (Backtester.get_results p st).profit_factor = PFVal.inf) := by
  constructor
  · intro h
    simp [Backtester.get_results, h]
  · intro hne htl
    rcases hts : st.trades with _ | ⟨a, l⟩
    · exact absurd hts hne
    · simp only [Backtester.get_results, hts]
      rw [← hts, htl]
      simp

/-- A closed winning trade used by the C7 witness. -/
def tradeW : ClosedTrade :=
  { entry_time := 102, exit_time := 103, side := Side.BUY, entry_price := 101,
    exit_price := 103.4, take_profit := 103.4, stop_loss := 99.8,
    points := 2.4, profit := 240, balance := 10240,
    exit_reason := ExitReason.TP, win := true }

/-- A run state with exactly one (winning) closed trade. -/
def stWin : BTState :=
  { balance := 10240, in_position := false, current_trade := none,
    trades := [tradeW],
    equity_curve := [{ time := 102, balance := 10000, in_position := false }],
    daily_trades_count := fun _ => 0 }

/-- Witness for C7: the zero-trade state reports the all-zero record and the
one-winning-trade state (zero gross loss) reports the infinite profit factor. -/
theorem C7_degenerate_witness :
    Backtester.get_results pm1 (BTState.init pm1) =
      { total_trades := 0, winning_trades := 0, losing_trades := 0,
        win_rate := 0, total_profit := 0, total_loss := 0, net_profit := 0,
        return_pct := 0, max_drawdown := 0, max_drawdown_pct := 0,
        avg_win := 0, avg_loss := 0, profit_factor := PFVal.fin 0,
        largest_win := 0, largest_loss := 0,
        final_balance := (BTState.init pm1).balance,
        initial_balance := pm1.initial_balance } ∧
    (Backtester.get_results pm1 stWin).profit_factor = PFVal.inf := by
  constructor
  · exact (C7_degenerate_metrics pm1 (BTState.init pm1)).1 rfl
  · exact (C7_degenerate_metrics pm1 stWin).2 (by simp [stWin])
      (by simp [stWin, tradeW])

/-- The balance-accounting invariant: the balance always equals the initial
balance plus the profits of the closed trades. -/
def BalInv (p : BTParams) (st : BTState) : Prop :=
  st.balance = p.initial_balance + sumProfits st.trades

namespace Backtester

theorem close_trade_equity (p : BTParams) (st : BTState) (price : ℚ) (t : Nat)
    (r : ExitReason) :
    (close_trade p st price t r).equity_curve = st.equity_curve := by
  unfold close_trade
  split
  · rfl
  · split <;> rfl

theorem close_trade_daily (p : BTParams) (st : BTState) (price : ℚ) (t : Nat)
    (r : ExitReason) :
    (close_trade p st price t r).daily_trades_count = st.daily_trades_count := by
  unfold close_trade
  split
  · rfl
  · split <;> rfl

theorem close_trade_inv (p : BTParams) (st : BTState) (price : ℚ) (t : Nat)
    (r : ExitReason) (h : BalInv p st) : BalInv p (close_trade p st price t r) := by
  unfold close_trade
  split
  · exact h
  · split
    · exact h
    · simp only [BalInv] at h ⊢
      rw [sumProfits_append, h]
      simp only [sumProfits, sumQ, List.map, List.foldr]
      ring

theorem entryPhase_preserves (p : BTParams) (df : List Bar) (i : Nat)
    (st : BTState) :
    (entryPhase p df i st).balance = st.balance ∧
    (entryPhase p df i st).trades = st.trades ∧
    (entryPhase p df i st).equity_curve = st.equity_curve := by
  unfold entryPhase
  split
  · exact ⟨rfl, rfl, rfl⟩
  split
  · exact ⟨rfl, rfl, rfl⟩
  split
  · split
    · simp [open_trade, increment_daily_trades]
    · exact ⟨rfl, rfl, rfl⟩
  · exact ⟨rfl, rfl, rfl⟩

theorem recordEquity_fields (df : List Bar) (i : Nat) (st : BTState) :
    (recordEquity df i st).balance = st.balance ∧
    (recordEquity df i st).trades = st.trades ∧
    (recordEquity df i st).in_position = st.in_position ∧
    (recordEquity df i st).equity_curve = st.equity_curve ++
      [{ time := (getBar df i).time, balance := st.balance,
         in_position := st.in_position }] :=
  ⟨rfl, rfl, rfl, rfl⟩

theorem exitPhase_equity (p : BTParams) (df : List Bar) (i : Nat)
    (st : BTState) : (exitPhase p df i st).equity_curve = st.equity_curve := by
  unfold exitPhase
  split
  · dsimp only
    split
    · exact close_trade_equity _ _ _ _ _
    · rfl
  · rfl

theorem exitPhase_inv (p : BTParams) (df : List Bar) (i : Nat) (st : BTState)
    (h : BalInv p st) : BalInv p (exitPhase p df i st) := by
  unfold exitPhase
  split
  · dsimp only
    split
    · exact close_trade_inv _ _ _ _ _ h
    · exact h
  · exact h

theorem stepBar_balance (p : BTParams) (df : List Bar) (i : Nat)
    (st : BTState) :
    (stepBar p df i st).balance = (exitPhase p df i st).balance ∧
    (stepBar p df i st).trades = (exitPhase p df i st).trades := by
  unfold stepBar
  refine ⟨?_, ?_⟩
  · rw [(entryPhase_preserves p df i _).1]; rfl
  · rw [(entryPhase_preserves p df i _).2.1]; rfl

theorem stepBar_equity (p : BTParams) (df : List Bar) (i : Nat)
    (st : BTState) :
    (stepBar p df i st).equity_curve = st.equity_curve ++
      [{ time := (getBar df i).time, balance := (stepBar p df i st).balance,
         in_position := (exitPhase p df i st).in_position }] := by
  have hb := (stepBar_balance p df i st).1
  have h1 := (entryPhase_preserves p df i (recordEquity df i (exitPhase p df i st))).2.2
  show (entryPhase p df i (recordEquity df i (exitPhase p df i st))).equity_curve = _
  rw [h1, hb]
  show (exitPhase p df i st).equity_curve ++ _ = _
  rw [exitPhase_equity]

theorem stepBar_inv (p : BTParams) (df : List Bar) (i : Nat) (st : BTState)
    (h : BalInv p st) : BalInv p (stepBar p df i st) := by
  have he := exitPhase_inv p df i st h
  have hb := (stepBar_balance p df i st).1
  have ht := (stepBar_balance p df i st).2
  unfold BalInv at he ⊢
  rw [hb, ht]
  exact he

theorem runLoop_append_eq (p : BTParams) (df : List Bar) (L1 L2 : List Nat) :
    ∀ st, runLoop p df (L1 ++ L2) st = runLoop p df L2 (runLoop p df L1 st) := by
  induction L1 with
  | nil => intro st; rfl
  | cons a t ih => intro st; exact ih (stepBar p df a st)

theorem runLoop_inv (p : BTParams) (df : List Bar) (L : List Nat) :
    ∀ st, BalInv p st → BalInv p (runLoop p df L st) := by
  induction L with
  | nil => intro st h; exact h
  | cons a t ih => intro st h; exact ih _ (stepBar_inv p df a st h)

theorem runLoop_equity_len (p : BTParams) (df : List Bar) (L : List Nat) :
    ∀ st, (runLoop p df L st).equity_curve.length =
      st.equity_curve.length + L.length := by
  induction L with
  | nil => intro st; simp [runLoop]
  | cons a t ih =>
    intro st
    have h := ih (stepBar p df a st)
    rw [runLoop] at *
    rw [h, stepBar_equity]
    simp
    omega

theorem runLoop_equity_ext (p : BTParams) (df : List Bar) (L : List Nat) :
    ∀ st, ∃ tl, (runLoop p df L st).equity_curve = st.equity_curve ++ tl := by
  induction L with
  | nil => intro st; exact ⟨[], by simp [runLoop]⟩
  | cons a t ih =>
    intro st
    obtain ⟨tl, htl⟩ := ih (stepBar p df a st)
    refine ⟨{ time := (getBar df a).time, balance := (stepBar p df a st).balance,
              in_position := (exitPhase p df a st).in_position } :: tl, ?_⟩
    rw [runLoop, htl, stepBar_equity]
    simp

theorem forceClose_equity (p : BTParams) (df : List Bar) (e : Nat)
    (st : BTState) : (forceClose p df e st).equity_curve = st.equity_curve := by
  unfold forceClose
  split
  · exact close_trade_equity _ _ _ _ _
  · rfl

end Backtester

namespace Backtester

theorem range'_split (s n t : Nat) (h : t < n) :
    List.range' s n =
      List.range' s (t + 1) ++ List.range' (s + (t + 1)) (n - (t + 1)) := by
  have ha := List.range'_append s (t + 1) (n - (t + 1)) 1
  simp only [one_mul] at ha
  have h3 : n - (t + 1) + (t + 1) = n := by omega
  rw [h3] at ha
  exact ha.symm

theorem run_backtest_def (p : BTParams) (df : List Bar)
    (startO endO : Option Nat) :
    run_backtest p df startO endO =
      forceClose p df (endIdx df endO)
        (runLoop p df
          (List.range' (startIdx p startO) (endIdx df endO - startIdx p startO))
          (BTState.init p)) := rfl

theorem init_inv (p : BTParams) : BalInv p (BTState.init p) := by
  simp [BalInv, BTState.init, sumProfits, sumQ]

theorem runLoop_last_sample (p : BTParams) (df : List Bar) (s k : Nat) :
    (runLoop p df (List.range' s (k + 1)) (BTState.init p)).equity_curve.get? k
      = some
          { time := (getBar df (s + k)).time,
            balance :=
              (runLoop p df (List.range' s (k + 1)) (BTState.init p)).balance,
            in_position :=
              (exitPhase p df (s + k)
                (runLoop p df (List.range' s k) (BTState.init p))).in_position } := by
  have h0 : List.range' s (k + 1) = List.range' s k ++ [s + 1 * k] :=
    List.range'_concat s k
  rw [one_mul] at h0
  rw [h0, runLoop_append_eq]
  show (stepBar p df (s + k)
      (runLoop p df (List.range' s k) (BTState.init p))).equity_curve.get? k = _
  rw [stepBar_equity]
  have hl : (runLoop p df (List.range' s k) (BTState.init p)).equity_curve.length
      = k := by
    rw [runLoop_equity_len]; simp [BTState.init]
  have hcat := List.get?_concat_length
    (runLoop p df (List.range' s k) (BTState.init p)).equity_curve
    { time := (getBar df (s + k)).time,
      balance :=
        (stepBar p df (s + k)
          (runLoop p df (List.range' s k) (BTState.init p))).balance,
      in_position :=
        (exitPhase p df (s + k)
          (runLoop p df (List.range' s k) (BTState.init p))).in_position }
  rw [hl] at hcat
  exact hcat

end Backtester

/-- C1: (i) the equity curve has one sample per processed bar; (ii) the sample
recorded at bar `t` carries balance `initial_balance` plus the summed profits
of exactly the trades closed at or before bar `t` (the trades of the prefix
run through bar `t`); (iii) the entry phase is a no-op whenever a position is
open, so a new trade is never opened while one is open (`current_trade :
Option OpenTrade` makes more than one simultaneous open trade
unrepresentable). -/
theorem C1_equity_balance_invariant (p : BTParams) (df : List Bar)
    (startO endO : Option Nat) :
    (Backtester.run_backtest p df startO endO).equity_curve.length =
      Backtester.endIdx df endO - Backtester.startIdx p startO ∧
    (∀ t sample,
      (Backtester.run_backtest p df startO endO).equity_curve.get? t
        = some sample →
      sample.balance = p.initial_balance +
        sumProfits ((Backtester.runPrefixState p df startO (t + 1)).trades)) ∧
    (∀ (st : BTState) (i : Nat), st.in_position = true →
      Backtester.entryPhase p df i st = st) := by
  refine ⟨?_, ?_, ?_⟩
  · rw [Backtester.run_backtest_def, Backtester.forceClose_equity,
      Backtester.runLoop_equity_len]
    simp [BTState.init]
  · intro t sample hget
    rw [Backtester.run_backtest_def, Backtester.forceClose_equity] at hget
    have hlt : t < (Backtester.runLoop p df
        (List.range' (Backtester.startIdx p startO)
          (Backtester.endIdx df endO - Backtester.startIdx p startO))
        (BTState.init p)).equity_curve.length := by
      obtain ⟨hl, _⟩ := List.get?_eq_some.mp hget
      exact hl
    rw [Backtester.runLoop_equity_len] at hlt
    simp only [BTState.init, List.length_nil, List.length_range'] at hlt
    have ht : t < Backtester.endIdx df endO - Backtester.startIdx p startO := by
      omega
    have hsplit := Backtester.range'_split (Backtester.startIdx p startO)
      (Backtester.endIdx df endO - Backtester.startIdx p startO) t ht
    rw [hsplit, Backtester.runLoop_append_eq] at hget
    obtain ⟨tl, htl⟩ := Backtester.runLoop_equity_ext p df
      (List.range' (Backtester.startIdx p startO + (t + 1))
        ((Backtester.endIdx df endO - Backtester.startIdx p startO) - (t + 1)))
      (Backtester.runLoop p df
        (List.range' (Backtester.startIdx p startO) (t + 1)) (BTState.init p))
    rw [htl] at hget
    have hPlen : (Backtester.runLoop p df
        (List.range' (Backtester.startIdx p startO) (t + 1))
        (BTState.init p)).equity_curve.length = t + 1 := by
      rw [Backtester.runLoop_equity_len]; simp [BTState.init]
    rw [List.get?_append (by omega)] at hget
    have hP := Backtester.runLoop_last_sample p df
      (Backtester.startIdx p startO) t
    rw [hget] at hP
    have hsample := Option.some.inj hP
    have hinv := Backtester.runLoop_inv p df
      (List.range' (Backtester.startIdx p startO) (t + 1)) (BTState.init p)
      (Backtester.init_inv p)
    rw [hsample]
    exact hinv
  · intro st i h
    unfold Backtester.entryPhase
    rw [if_pos h]

/-- Witness for C1 at the exemplar run: two samples; the sample at index 1 has
balance `10240 = 10000 + 240`, the profit of the one trade closed by then; and
the entry phase is a no-op on an in-position state. -/
theorem C1_equity_balance_witness :
    (Backtester.run_backtest pm1 bars4 none none).equity_curve.length =
      Backtester.endIdx bars4 none - Backtester.startIdx pm1 none ∧
    (10240 : ℚ) = pm1.initial_balance +
      sumProfits ((Backtester.runPrefixState pm1 bars4 none 2).trades) ∧
    Backtester.entryPhase pm1 bars4 0 stW2 = stW2 := by
  obtain ⟨h1, h2, h3⟩ := C1_equity_balance_invariant pm1 bars4 none none
  refine ⟨h1, ?_, h3 stW2 0 rfl⟩
  have hs := h2 1 { time := 103, balance := 10240, in_position := false } ?_
  · simpa using hs
  · norm_num [Backtester.run_backtest, Backtester.runLoop, Backtester.stepBar,
      Backtester.exitPhase, Backtester.recordEquity, Backtester.entryPhase,
      Backtester.identify_consolidation, Backtester.detect_breakout,
      Backtester.calculate_tp_sl, Backtester.open_trade,
      Backtester.check_trade_exit, Backtester.close_trade,
      Backtester.can_trade_today, Backtester.increment_daily_trades,
      Backtester.forceClose, Backtester.startIdx, Backtester.endIdx,
      BTState.init, sliceBars, getBar, maxQ, minQ, maxFrom, minFrom, meanQ,
      sumQ, dateOf, List.range', pm1, bars4, barA, barB, barC, barD,
      Option.some_ne_none]

/-- Contribution of the (at most one) currently open trade to date `d`'s
entry count. -/
def openOnDate (d : Nat) : Option OpenTrade → Nat
  | none => 0
  | some tr => if dateOf tr.entry_time = d then 1 else 0

/-- The daily-cap invariant: position flag and open-trade option agree, and for
every calendar date the closed-trade entries plus the open-trade entry equal
the daily counter, which never exceeds the cap. -/
def DayInv (p : BTParams) (st : BTState) : Prop :=
  st.in_position = st.current_trade.isSome ∧
  ∀ d, tradesOnDate d st.trades + openOnDate d st.current_trade =
      st.daily_trades_count d ∧
    st.daily_trades_count d ≤ p.max_daily_trades

theorem tradesOnDate_append (d : Nat) (ts : List ClosedTrade) (r : ClosedTrade) :
    tradesOnDate d (ts ++ [r]) =
      tradesOnDate d ts + (if dateOf r.entry_time = d then 1 else 0) := by
  simp only [tradesOnDate, List.filter_append, List.length_append]
  split <;> simp_all

namespace Backtester

theorem close_trade_dayinv (p : BTParams) (st : BTState) (price : ℚ) (t : Nat)
    (r : ExitReason) (h : DayInv p st) : DayInv p (close_trade p st price t r) := by
  unfold close_trade
  split
  · exact h
  · split
    · exact h
    · next tr heq =>
      obtain ⟨hcoh, hcnt⟩ := h
      refine ⟨rfl, fun d => ?_⟩
      obtain ⟨hsum, hle⟩ := hcnt d
      rw [heq] at hsum
      constructor
      · show tradesOnDate d (st.trades ++ [_]) + 0 = st.daily_trades_count d
        rw [tradesOnDate_append]
        dsimp only
        simp only [openOnDate] at hsum
        omega
      · exact hle

theorem exitPhase_dayinv (p : BTParams) (df : List Bar) (i : Nat)
    (st : BTState) (h : DayInv p st) : DayInv p (exitPhase p df i st) := by
  unfold exitPhase
  split
  · dsimp only
    split
    · exact close_trade_dayinv _ _ _ _ _ h
    · exact h
  · exact h

theorem recordEquity_dayinv (df : List Bar) (i : Nat) (st : BTState)
    (h : DayInv p st) : DayInv p (recordEquity df i st) := h

theorem entryPhase_dayinv (p : BTParams) (df : List Bar) (i : Nat)
    (st : BTState) (h : DayInv p st) : DayInv p (entryPhase p df i st) := by
  by_cases hpos : st.in_position = true
  · unfold entryPhase; rw [if_pos hpos]; exact h
  by_cases hcan : can_trade_today p st (getBar df i).time = false
  · unfold entryPhase; rw [if_neg hpos, if_pos hcan]; exact h
  unfold entryPhase
  rw [if_neg hpos, if_neg hcan]
  split
  · split
    · obtain ⟨hcoh, hcnt⟩ := h
      have hflat : st.in_position = false := by
        revert hpos; cases st.in_position <;> simp
      have hnone : st.current_trade = none := by
        rw [hflat] at hcoh
        cases hct : st.current_trade with
        | none => rfl
        | some tr => rw [hct] at hcoh; simp at hcoh
      have hcan' : can_trade_today p st (getBar df i).time = true := by
        revert hcan; cases can_trade_today p st (getBar df i).time <;> simp
      have hlt : st.daily_trades_count (dateOf (getBar df i).time)
          < p.max_daily_trades := by
        simpa [can_trade_today] using hcan'
      simp only [open_trade, increment_daily_trades]
      refine ⟨rfl, fun d => ?_⟩
      obtain ⟨hsum, hle⟩ := hcnt d
      rw [hnone] at hsum
      simp only [openOnDate] at hsum
      by_cases hd : d = dateOf (getBar df i).time
      · subst hd
        simp [openOnDate]
        omega
      · have hd' : ¬ (dateOf (getBar df i).time = d) := fun hc => hd hc.symm
        simp [openOnDate, hd, hd']
        omega
    · exact h
  · exact h

theorem stepBar_dayinv (p : BTParams) (df : List Bar) (i : Nat) (st : BTState)
    (h : DayInv p st) : DayInv p (stepBar p df i st) :=
  entryPhase_dayinv p df i _
    (recordEquity_dayinv df i _ (exitPhase_dayinv p df i st h))

theorem runLoop_dayinv (p : BTParams) (df : List Bar) (L : List Nat) :
    ∀ st, DayInv p st → DayInv p (runLoop p df L st) := by
  induction L with
  | nil => intro st h; exact h
  | cons a t ih => intro st h; exact ih _ (stepBar_dayinv p df a st h)

theorem init_dayinv (p : BTParams) : DayInv p (BTState.init p) := by
  refine ⟨rfl, fun d => ⟨rfl, ?_⟩⟩
  exact Nat.zero_le _

theorem forceClose_dayinv (p : BTParams) (df : List Bar) (e : Nat)
    (st : BTState) (h : DayInv p st) : DayInv p (forceClose p df e st) := by
  unfold forceClose
  split
  · exact close_trade_dayinv _ _ _ _ _ h
  · exact h

end Backtester

/-- C6: in every run at most `max_daily_trades` trades are entered per
calendar date; on the exemplar series a one-trade cap yields exactly one
trade while a two-trade cap yields two trades entered on the same date
(so a second qualifying signal existed and was suppressed by the cap). -/
theorem C6_daily_trade_cap (p : BTParams) (df : List Bar)
    (startO endO : Option Nat) (d : Nat) :
    tradesOnDate d (Backtester.run_backtest p df startO endO).trades ≤
      p.max_daily_trades ∧
    (Backtester.run_backtest pm1 bars4 none none).trades.length = 1 ∧
    (Backtester.run_backtest pm2 bars4 none none).trades.length = 2 ∧
    (Backtester.run_backtest pm2 bars4 none none).trades.map
      (fun tr => dateOf tr.entry_time) = [0, 0] := by
  refine ⟨?_, ?_, ?_, ?_⟩
  · have h := Backtester.forceClose_dayinv p df (Backtester.endIdx df endO)
      (Backtester.runLoop p df
        (List.range' (Backtester.startIdx p startO)
          (Backtester.endIdx df endO - Backtester.startIdx p startO))
        (BTState.init p))
      (Backtester.runLoop_dayinv p df _ _ (Backtester.init_dayinv p))
    rw [Backtester.run_backtest_def]
    obtain ⟨hsum, hle⟩ := h.2 d
    omega
  · norm_num [Backtester.run_backtest, Backtester.runLoop, Backtester.stepBar,
      Backtester.exitPhase, Backtester.recordEquity, Backtester.entryPhase,
      Backtester.identify_consolidation, Backtester.detect_breakout,
      Backtester.calculate_tp_sl, Backtester.open_trade,
      Backtester.check_trade_exit, Backtester.close_trade,
      Backtester.can_trade_today, Backtester.increment_daily_trades,
      Backtester.forceClose, Backtester.startIdx, Backtester.endIdx,
      BTState.init, sliceBars, getBar, maxQ, minQ, maxFrom, minFrom, meanQ,
      sumQ, dateOf, List.range', pm1, bars4, barA, barB, barC, barD,
      Option.some_ne_none]
  · norm_num [Backtester.run_backtest, Backtester.runLoop, Backtester.stepBar,
      Backtester.exitPhase, Backtester.recordEquity, Backtester.entryPhase,
      Backtester.identify_consolidation, Backtester.detect_breakout,
      Backtester.calculate_tp_sl, Backtester.open_trade,
      Backtester.check_trade_exit, Backtester.close_trade,
      Backtester.can_trade_today, Backtester.increment_daily_trades,
      Backtester.forceClose, Backtester.startIdx, Backtester.endIdx,
      BTState.init, sliceBars, getBar, maxQ, minQ, maxFrom, minFrom, meanQ,
      sumQ, dateOf, List.range', pm1, pm2, bars4, barA, barB, barC, barD,
      Option.some_ne_none]
  · norm_num [Backtester.run_backtest, Backtester.runLoop, Backtester.stepBar,
      Backtester.exitPhase, Backtester.recordEquity, Backtester.entryPhase,
      Backtester.identify_consolidation, Backtester.detect_breakout,
      Backtester.calculate_tp_sl, Backtester.open_trade,
      Backtester.check_trade_exit, Backtester.close_trade,
      Backtester.can_trade_today, Backtester.increment_daily_trades,
      Backtester.forceClose, Backtester.startIdx, Backtester.endIdx,
      BTState.init, sliceBars, getBar, maxQ, minQ, maxFrom, minFrom, meanQ,
      sumQ, dateOf, List.range', pm1, pm2, bars4, barA, barB, barC, barD,
      Option.some_ne_none]

/-- A malformed two-bar series whose timestamps decrease. -/
def barsBad : List Bar :=
  [ { time := 500, open_price := 10, high := 11, low := 9, close := 10, tick_volume := 1 },
    { time := 400, open_price := 10, high := 11, low := 9, close := 10, tick_volume := 1 } ]

/-- Counterexample to C8: the engine performs no input validation — on a
series with non-monotonic timestamps the simulation loop runs and records one
equity sample per bar (no `InvalidInputError` exists anywhere in the code,
and nothing is rejected before the loop). -/
theorem C8_counterexample :
    timesStrictMono barsBad = false ∧
    (Backtester.run_backtest pm1 barsBad (some 0) none).equity_curve.length = 2 ∧
    (Backtester.run_backtest pm1 barsBad (some 0) none).trades = [] := by
  refine ⟨by decide, ?_, ?_⟩ <;>
    norm_num [Backtester.run_backtest, Backtester.runLoop, Backtester.stepBar,
      Backtester.exitPhase, Backtester.recordEquity, Backtester.entryPhase,
      Backtester.identify_consolidation, Backtester.detect_breakout,
      Backtester.calculate_tp_sl, Backtester.open_trade,
      Backtester.check_trade_exit, Backtester.close_trade,
      Backtester.can_trade_today, Backtester.increment_daily_trades,
      Backtester.forceClose, Backtester.startIdx, Backtester.endIdx,
      BTState.init, sliceBars, getBar, maxQ, minQ, maxFrom, minFrom, meanQ,
      sumQ, dateOf, List.range', pm1, barsBad, Option.some_ne_none]

/-- C8 (amended): the engine performs no input validation: even for a series
whose timestamps are not strictly increasing, `run_backtest` enters the
simulation loop directly and appends one equity sample per processed bar;
no `InvalidInputError` is raised (no such error exists in the code). -/
theorem C8_no_input_validation (p : BTParams) (df : List Bar)
    (startO endO : Option Nat) (_hbad : timesStrictMono df = false) :
    (Backtester.run_backtest p df startO endO).equity_curve.length =
      Backtester.endIdx df endO - Backtester.startIdx p startO := by
  rw [Backtester.run_backtest_def, Backtester.forceClose_equity,
    Backtester.runLoop_equity_len]
  simp [BTState.init]

/-- Witness for the amended C8 at the malformed exemplar series. -/
theorem C8_no_input_validation_witness :
    (Backtester.run_backtest pm1 barsBad (some 0) none).equity_curve.length =
      Backtester.endIdx barsBad none - Backtester.startIdx pm1 (some 0) :=
  C8_no_input_validation pm1 barsBad (some 0) none (by decide)

namespace UltraBacktester

theorem uclose_trade_equity (p : UParams) (st : UState) (price : ℚ) (t : Nat)
    (r : ExitReason) :
    (close_trade p st price t r).equity_curve = st.equity_curve := by
  unfold close_trade
  split
  · rfl
  · split <;> rfl

theorem update_trailing_equity (p : UParams) (st : UState) (h l : ℚ) :
    (update_trailing_stop p st h l).equity_curve = st.equity_curve := by
  unfold update_trailing_stop
  split
  · rfl
  split
  · rfl
  split <;> (split <;> first | rfl | (split <;> rfl))

theorem check_trade_exit_fst (p : UParams) (st : UState) (bar : Bar) :
    (check_trade_exit p st bar).1.equity_curve = st.equity_curve := by
  unfold check_trade_exit
  split
  · rfl
  · dsimp only
    split
    · exact update_trailing_equity p st bar.high bar.low
    · repeat' split
      all_goals exact update_trailing_equity p st bar.high bar.low

theorem uexitPhase_equity (p : UParams) (df : List Bar) (i : Nat) (st : UState) :
    (exitPhase p df i st).equity_curve = st.equity_curve := by
  unfold exitPhase
  split
  · dsimp only
    split
    · next st' price reason heq =>
      rw [uclose_trade_equity]
      have h1 : (check_trade_exit p st (getBar df i)).1 = st' := by rw [heq]
      rw [← h1]
      exact check_trade_exit_fst p st (getBar df i)
    · next s1 bb pp rr hfn heq =>
      have h1 : (check_trade_exit p st (getBar df i)).1 = s1 := by rw [heq]
      rw [← h1]
      exact check_trade_exit_fst p st (getBar df i)
  · rfl

end UltraBacktester

namespace UltraBacktester

theorem entryPhase_equity (p : UParams) (df : List Bar) (i : Nat)
    (st : UState) : (entryPhase p df i st).equity_curve = st.equity_curve := by
  unfold entryPhase
  split
  · rfl
  split
  · rfl
  split
  · dsimp only
    split
    · simp [open_trade, increment_daily_trades]
    · rfl
  · rfl

theorem ustepBar_equity (p : UParams) (df : List Bar) (i : Nat) (st : UState) :
    (stepBar p df i st).equity_curve = st.equity_curve ++
      [{ time := (getBar df i).time,
         balance := (exitPhase p df i st).balance,
         in_position := (exitPhase p df i st).in_position }] := by
  show (entryPhase p df i (recordEquity df i (exitPhase p df i st))).equity_curve = _
  rw [entryPhase_equity]
  show (exitPhase p df i st).equity_curve ++ _ = _
  rw [uexitPhase_equity]

theorem urunLoop_equity_len (p : UParams) (df : List Bar) (L : List Nat) :
    ∀ st, (runLoop p df L st).equity_curve.length =
      st.equity_curve.length + L.length := by
  induction L with
  | nil => intro st; simp [runLoop]
  | cons a t ih =>
    intro st
    have h := ih (stepBar p df a st)
    rw [runLoop] at *
    rw [h, ustepBar_equity]
    simp
    omega

theorem uforceClose_equity (p : UParams) (df : List Bar) (e : Nat)
    (st : UState) : (forceClose p df e st).equity_curve = st.equity_curve := by
  unfold forceClose
  split
  · exact uclose_trade_equity _ _ _ _ _
  · rfl

theorem urun_backtest_def (p : UParams) (df : List Bar)
    (startO endO : Option Nat) :
    run_backtest p df startO endO =
      forceClose p df (endIdx p df endO)
        (runLoop p df
          (List.range' (startIdx p startO)
            (endIdx p df endO - startIdx p startO))
          (UState.init p)) := rfl

end UltraBacktester

/-- C10: with the false-breakout filter enabled and no explicit end index, the
ultra replay ends at `len(df) - confirmation_bars`: the equity curve contains
one sample per index in `[start, len - confirmation_bars)` (the final
`confirmation_bars` bars are never evaluated and receive no samples), every
evaluated index `i` satisfies `i + confirmation_bars < len(df)`, and for such
`i` the confirmation filter reduces to its forward scan — its
insufficient-future-bars veto branch is unreachable. -/
theorem C10_default_end_skips_tail (p : UParams) (df : List Bar)
    (startO : Option Nat) (hfb : p.use_false_breakout_filter = true) :
    UltraBacktester.endIdx p df none = df.length - p.confirmation_bars ∧
    (UltraBacktester.run_backtest p df startO none).equity_curve.length =
      (df.length - p.confirmation_bars) - UltraBacktester.startIdx p startO ∧
    (∀ i, i ∈ List.range' (UltraBacktester.startIdx p startO)
        ((df.length - p.confirmation_bars) - UltraBacktester.startIdx p startO) →
      i + p.confirmation_bars < df.length ∧
      ∀ hl ll s, UltraBacktester.check_false_breakout p df i hl ll s =
        UltraBacktester.scanConfirm df hl ll s (i + 1) p.confirmation_bars) := by
  have hend : UltraBacktester.endIdx p df none =
      df.length - p.confirmation_bars := by
    simp [UltraBacktester.endIdx, hfb]
  refine ⟨hend, ?_, ?_⟩
  · rw [UltraBacktester.urun_backtest_def, UltraBacktester.uforceClose_equity,
      UltraBacktester.urunLoop_equity_len, hend]
    simp [UState.init]
  · intro i hi
    rw [List.mem_range'_1] at hi
    have hlt : i + p.confirmation_bars < df.length := by omega
    refine ⟨hlt, fun hl ll s => ?_⟩
    unfold UltraBacktester.check_false_breakout
    rw [if_neg (by simp [hfb]), if_neg (by omega)]

/-- Witness for C10 on the exemplar ultra configuration (5 bars, one
confirmation bar): replay ends at index 4, two equity samples are recorded
and index 2 is safely inside the confirmation filter's scan range. -/
theorem C10_default_end_witness :
    UltraBacktester.endIdx uW dfU none = 4 ∧
    (UltraBacktester.run_backtest uW dfU none none).equity_curve.length = 2 ∧
    2 + uW.confirmation_bars < dfU.length ∧
    UltraBacktester.check_false_breakout uW dfU 2 1 2 Side.BUY =
      UltraBacktester.scanConfirm dfU 1 2 Side.BUY (2 + 1)
        uW.confirmation_bars := by
  obtain ⟨h1, h2, h3⟩ := C10_default_end_skips_tail uW dfU none rfl
  have hmem := h3 2 (by decide)
  exact ⟨h1.trans (by decide), h2.trans (by decide), hmem.1,
    hmem.2 1 2 Side.BUY⟩
